import Mathlib

/-!
Shallow embedding of the GeneralBasic compiler (src/compiler.py) and its
URCL back-end (src/emitters/urcl.py), with theorems checking the
natural-language specification against the code.
-/

namespace GeneralBasic

/-! ## Python string and integer helpers

All string operations are written over `String.data` with structural
recursion, so that concrete runs reduce inside the kernel. -/

instance {ε α : Type} [DecidableEq ε] [DecidableEq α] : DecidableEq (Except ε α) := fun a b =>
  match a, b with
  | .ok x, .ok y =>
    if h : x = y then .isTrue (by rw [h]) else .isFalse (by intro c; cases c; exact h rfl)
  | .error x, .error y =>
    if h : x = y then .isTrue (by rw [h]) else .isFalse (by intro c; cases c; exact h rfl)
  | .ok _, .error _ => .isFalse (by intro c; cases c)
  | .error _, .ok _ => .isFalse (by intro c; cases c)

/-- Python `str.upper()` (ASCII, which covers every string this program builds). -/
def pyUpper (s : String) : String := ⟨s.data.map Char.toUpper⟩

/-- Python `s.startswith(p)`. -/
def pyStartsWith (s p : String) : Bool := p.data.isPrefixOf s.data

/-- Python `s.endswith(p)`. -/
def pyEndsWith (s p : String) : Bool := p.data.isSuffixOf s.data

/-- Python `s[n:]` (character based, as Python strings are). -/
def pyDrop (s : String) (n : Nat) : String := ⟨s.data.drop n⟩

/-- Python `len(s)`. -/
def pyLen (s : String) : Nat := s.data.length

/-- Hex digit as it appears in the uppercased text: `[0-9A-F]`. -/
def isHexUpper (c : Char) : Bool := c.isDigit || ('A' ≤ c && c ≤ 'F')

/-- Octal digit `[0-7]`. -/
def isOctalDigit (c : Char) : Bool := '0' ≤ c && c ≤ '7'

/-- Binary digit `[01]`. -/
def isBinDigit (c : Char) : Bool := c = '0' || c = '1'

/-- Value of one digit character the way Python `int(s, base)` reads it:
`0`-`9`, then letters (case-insensitive) for values 10 and up. -/
def pyDigitValue (c : Char) : Option Nat :=
  if c.isDigit then some (c.toNat - '0'.toNat)
  else if 'a' ≤ c && c ≤ 'z' then some (c.toNat - 'a'.toNat + 10)
  else if 'A' ≤ c && c ≤ 'Z' then some (c.toNat - 'A'.toNat + 10)
  else none

/-- Digits-only part of Python `int`: fails on an empty digit string or on any
character that is not a digit of the base. -/
def pyIntDigits (base : Nat) : List Char → Option Nat → Option Nat
  | [], acc => acc
  | c :: rest, acc =>
    pyIntDigits base rest (acc.bind fun a =>
      (pyDigitValue c).bind fun d => if d < base then some (a * base + d) else none)

/-- Python `int(s, base)` on the strings this program can pass it: an optional
sign, an optional base prefix (`0x`/`0o`/`0b`, when the base matches), then a
non-empty run of digits of the base.  `none` models the `ValueError` raise. -/
def pyInt (s : String) (base : Nat) : Option Int :=
  let (sign, cs) : Int × List Char :=
    match s.data with
    | '-' :: r => (-1, r)
    | '+' :: r => (1, r)
    | r => (1, r)
  let cs : List Char :=
    match base, cs with
    | 16, '0' :: 'x' :: r => r
    | 16, '0' :: 'X' :: r => r
    | 8, '0' :: 'o' :: r => r
    | 8, '0' :: 'O' :: r => r
    | 2, '0' :: 'b' :: r => r
    | 2, '0' :: 'B' :: r => r
    | _, r => r
  match pyIntDigits base cs (if cs.isEmpty then none else some 0) with
  | some n => some (sign * n)
  | none => none

/-! ## `parse_value` (src/compiler.py lines 736-748) -/

/-- One full match of the body of the `parse_value` regex
`(0X[0-9A-F]+)|(0O[0-7]+)|(0B[01]+)|([1-9][0-9]+)|([0-9])` (the text has
already been uppercased). -/
def valueBodyMatches (cs : List Char) : Bool :=
  (match cs with
   | '0' :: 'X' :: rest => !rest.isEmpty && rest.all isHexUpper
   | _ => false) ||
  (match cs with
   | '0' :: 'O' :: rest => !rest.isEmpty && rest.all isOctalDigit
   | _ => false) ||
  (match cs with
   | '0' :: 'B' :: rest => !rest.isEmpty && rest.all isBinDigit
   | _ => false) ||
  (match cs with
   | c :: rest => ('1' ≤ c && c ≤ '9') && !rest.isEmpty && rest.all Char.isDigit
   | _ => false) ||
  (match cs with
   | [c] => c.isDigit
   | _ => false)

/-- Full match of `^\-?((0X[0-9A-F]+)|(0O[0-7]+)|(0B[01]+)|([1-9][0-9]+)|([0-9]))$`. -/
def valueRegexMatches (s : String) : Bool :=
  match s.data with
  | '-' :: rest => valueBodyMatches rest
  | cs => valueBodyMatches cs

/-- `parse_value`: the regex is checked against `text.upper()`, but the base
prefix dispatch below it compares `"0X"`/`"0O"`/`"0B"` against the raw
(possibly lowercase) text, falling through to a base-10 `int(text)` call.
Errors: the explicit raise and the `ValueError` that `int` can raise. -/
def parse_value (text : String) : Except String Int :=
  if !valueRegexMatches (pyUpper text) then .error ("Invalid value.")
  else
    let (negate, t) :=
      if pyStartsWith text ("-") then (true, pyDrop text 1) else (false, text)
    let r : Option Int :=
      if pyStartsWith t ("0X") then pyInt (pyDrop t 2) 16
      else if pyStartsWith t ("0O") then pyInt (pyDrop t 2) 8
      else if pyStartsWith t ("0B") then pyInt (pyDrop t 2) 2
      else pyInt t 10
    match r with
    | some n => .ok (if negate then -n else n)
    | none => .error ("ValueError")

/-! ## The type system (src/compiler.py)

`EmptyType` (size 0), the primitive `Integer`/`UInteger` and pointer types
(size 1), and `ComplexType` whose size is the sum of its field sizes.  Types
here are already resolved: `Resolver.Resolve` replaces type-name strings with
`Type` objects, and every claim below is about resolved programs. -/

mutual
inductive Ty : Type where
  | emptyT : Ty
  | signedInt : Ty
  | unsignedInt : Ty
  | pointerT (referenced : Ty) : Ty
  | complexT (name : String) (fields : List FieldD) : Ty

/-- A `Field` of a `ComplexType` (relativeTo/offset are produced by `GetField`
and are modelled where they are computed). -/
inductive FieldD : Type where
  | mk (name : String) (ty : Ty) (index : Nat) : FieldD
end

def FieldD.name : FieldD → String
  | .mk n _ _ => n

def FieldD.ty : FieldD → Ty
  | .mk _ t _ => t

def FieldD.index : FieldD → Nat
  | .mk _ _ i => i

mutual
/-- `Type.GetSize`: 0 for `EmptyType`, 1 for primitives and pointers, and for
`ComplexType` the `sum([field.GetType().GetSize() for field in fields])`. -/
def Ty.size : Ty → Nat
  | .emptyT => 0
  | .signedInt => 1
  | .unsignedInt => 1
  | .pointerT _ => 1
  | .complexT _ fields => fieldsSize fields

/-- Sum of the field type sizes of a `ComplexType`. -/
def fieldsSize : List FieldD → Nat
  | [] => 0
  | .mk _ t _ :: rest => t.size + fieldsSize rest
end

/-! ## `ComplexType` field offsets (src/compiler.py lines 281-308) -/

/-- The offset computed by `ComplexType.GetField(index)`:
`offset = 0; for i in range(nameOrIndex): offset += self._fields[i].GetSize()`
(`Field.GetSize` is `Variable.GetSize`, the size of the field type). -/
def ComplexType.getFieldIndexOffset (fields : List FieldD) (index : Nat) : Nat :=
  (List.range index).foldl (fun off i => off + (fields.getD i (.mk ("") .emptyT 0)).ty.size) 0

/-- The walk shared by `ComplexType.GetField(name)` and
`ComplexType.GetFieldOffset(name)`: scan the fields in declaration order,
accumulating sizes until the name matches. -/
def ComplexType.getFieldOffsetAux (off : Nat) : List FieldD → String → Option Nat
  | [], _ => none
  | f :: rest, name =>
    if f.name = name then some off
    else ComplexType.getFieldOffsetAux (off + f.ty.size) rest name

/-- `ComplexType.GetFieldOffset(name)`. -/
def ComplexType.GetFieldOffset (fields : List FieldD) (name : String) : Option Nat :=
  ComplexType.getFieldOffsetAux 0 fields name

/-! ## Parameters and the frame offsets (src/compiler.py lines 141-234) -/

/-- A `Parameter` after `Parameter.Resolve`: `_resolved = resolver.Resolve(type)`
and, for `ByRef` parameters, `_resolved = PointerType(_resolved)`. -/
structure ParamD : Type where
  name : String
  ty : Ty
  ref : Bool

/-- `Parameter.GetType()` after resolution. -/
def ParamD.resolvedTy (p : ParamD) : Ty := if p.ref then .pointerT p.ty else p.ty

/-- `Parameter.GetSize()` after resolution (`GetType().GetSize()`). -/
def ParamD.size (p : ParamD) : Nat := p.resolvedTy.size

/-- Python `range(start, stop, -1)`: `[start, start-1, ..., stop+1]`. -/
def pyRangeDown (start stop : Nat) : List Nat :=
  (List.range (start - stop)).map (fun k => start - k)

/-- The frame offset computed by `Parameter.EmitLoadAddress`:
`offset = 2; for i in range(context.GetArgumentCount() - 1, self.GetIndex(), -1):
offset += context.GetArgument(i).GetType().GetSize()`. -/
def Parameter.emitOffset (args : List ParamD) (index : Nat) : Nat :=
  (pyRangeDown (args.length - 1) index).foldl
    (fun off i => off + (args.getD i ⟨"", .emptyT, false⟩).size) 2

/-- The frame offset computed by `ReturnVariable.EmitLoadAddress`:
`offset = 2; for i in range(context.GetArgumentCount()):
offset += context.GetArgument(i).GetType().GetSize()`. -/
def ReturnVariable.emitOffset (args : List ParamD) : Nat :=
  (List.range args.length).foldl
    (fun off i => off + (args.getD i ⟨"", .emptyT, false⟩).size) 2

/-! ## The URCL emitter (src/emitters/urcl.py, class URCLEmitter)

An emitted instruction is its token list (`_emit(*args)` appends the list of
its non-`None` arguments; every argument this program passes is a string).
The emitter state carries the `_current` and `_internal` label counters and
the instruction list.  `showIL` is `False` (its default) throughout.
Methods that `raise NotImplementedError()` are modelled as `Except.error`. -/

abbrev Inst : Type := List String

structure EmitSt : Type where
  current : Nat
  internal : Nat
  insts : List Inst
  deriving DecidableEq

def EmitSt.empty : EmitSt := ⟨0, 0, []⟩

/-- `URCLEmitter._emit`. -/
def EmitSt.emit (st : EmitSt) (inst : Inst) : EmitSt :=
  { st with insts := st.insts ++ [inst] }

/-- Python `str` of a natural number. -/
def pyStrNat (n : Nat) : String := Nat.repr n

/-- Python `str` of an integer. -/
def pyStrInt (n : Int) : String := Int.repr n

/-- `URCLEmitter._target` for an integer label. -/
def targetNum (n : Nat) (internal : Bool) : String :=
  if internal then ".___urcl___internal___" ++ pyStrNat n else ".___urcl___" ++ pyStrNat n

/-- `URCLEmitter._target` for a named label. -/
def targetStr (t : String) : String := "." ++ t

/-- `URCLEmitter.begin_instruction` with `showIL = False`. -/
def EmitSt.beginInst (st : EmitSt) : EmitSt := st.emit [targetNum st.current false]

/-- `URCLEmitter.end_instruction`. -/
def EmitSt.endInst (st : EmitSt) : EmitSt := { st with current := st.current + 1 }

/-- `URCLEmitter.push(immediate)`. -/
def URCL.push (st : EmitSt) (immediate : Int) : EmitSt :=
  ((st.beginInst).emit ["psh", pyStrInt immediate]).endInst

/-- `URCLEmitter.add_sp(offset)`. -/
def URCL.add_sp (st : EmitSt) (offset : Nat) : EmitSt :=
  ((st.beginInst).emit ["sub", "SP", "SP", pyStrNat offset]).endInst

/-- `URCLEmitter.rem_sp(offset)`. -/
def URCL.rem_sp (st : EmitSt) (offset : Nat) : EmitSt :=
  ((st.beginInst).emit ["add", "SP", "SP", pyStrNat offset]).endInst

/-- `URCLEmitter.ld_sp`. -/
def URCL.ld_sp (st : EmitSt) : EmitSt := ((st.beginInst).emit ["psh", "SP"]).endInst

/-- `URCLEmitter.st_sp`. -/
def URCL.st_sp (st : EmitSt) : EmitSt := ((st.beginInst).emit ["pop", "SP"]).endInst

/-- `URCLEmitter.ld_bp` (the base pointer lives in `R3`). -/
def URCL.ld_bp (st : EmitSt) : EmitSt := ((st.beginInst).emit ["psh", "R3"]).endInst

/-- `URCLEmitter.st_bp`. -/
def URCL.st_bp (st : EmitSt) : EmitSt := ((st.beginInst).emit ["pop", "R3"]).endInst

/-- `URCLEmitter.ret`. -/
def URCL.ret (st : EmitSt) : EmitSt := ((st.beginInst).emit ["ret"]).endInst

/-- `URCLEmitter.jmp(target)`. -/
def URCL.jmp (st : EmitSt) (target : String) : EmitSt :=
  ((st.beginInst).emit ["jmp", targetStr target]).endInst

/-- `Emitter.mark_label` / `URCLEmitter._emit_label`: emits `"." + name` when
the label name is non-empty. -/
def URCL.markLabel (st : EmitSt) (name : String) : EmitSt :=
  if pyLen name > 0 then st.emit [targetStr name] else st

/-- `URCLEmitter.ld_ptr(size)`. -/
def URCL.ld_ptr (st : EmitSt) (size : Nat) : EmitSt :=
  let st := st.beginInst
  let st :=
    if size > 0 then
      let st := st.emit ["pop", "R1"]
      if size = 1 then (st.emit ["lod", "R1", "R1"]).emit ["psh", "R1"]
      else
        let st := st.emit ["add", "R1", "R1", pyStrNat (size - 1)]
        (List.range size).foldl
          (fun st i =>
            let st := if i ≠ 0 then st.emit ["sub", "R1", "R1", "1"] else st
            (st.emit ["lod", "R2", "R1"]).emit ["psh", "R2"])
          st
    else st
  st.endInst

/-- `URCLEmitter.mul_u`. -/
def URCL.mul_u (st : EmitSt) : EmitSt :=
  (((((st.beginInst).emit ["pop", "R2"]).emit ["pop", "R1"]).emit
    ["mlt", "R1", "R1", "R2"]).emit ["psh", "R1"]).endInst

/-- `URCLEmitter.mul_s`: the source is `def mul_s(self): self.mul_u()` — it
delegates to the unsigned multiply instead of raising. -/
def URCL.mul_s (st : EmitSt) : Except String EmitSt := .ok (URCL.mul_u st)

/-- `URCLEmitter.div_s`: `raise NotImplementedError()`. -/
def URCL.div_s (_st : EmitSt) : Except String EmitSt := .error ("NotImplementedError")

/-- `URCLEmitter.rem_s`: `raise NotImplementedError()`. -/
def URCL.rem_s (_st : EmitSt) : Except String EmitSt := .error ("NotImplementedError")

/-- `URCLEmitter.cmp_lt_s`: `raise NotImplementedError()`. -/
def URCL.cmp_lt_s (_st : EmitSt) : Except String EmitSt := .error ("NotImplementedError")

/-- `URCLEmitter.cmp_gt_s`: `raise NotImplementedError()`. -/
def URCL.cmp_gt_s (_st : EmitSt) : Except String EmitSt := .error ("NotImplementedError")

/-- `URCLEmitter.cmp_le_s`: `raise NotImplementedError()`. -/
def URCL.cmp_le_s (_st : EmitSt) : Except String EmitSt := .error ("NotImplementedError")

/-- `URCLEmitter.cmp_ge_s`: `raise NotImplementedError()`. -/
def URCL.cmp_ge_s (_st : EmitSt) : Except String EmitSt := .error ("NotImplementedError")

/-- `URCLEmitter.br_lt_s`: `raise NotImplementedError()`. -/
def URCL.br_lt_s (_st : EmitSt) (_target : String) : Except String EmitSt :=
  .error ("NotImplementedError")

/-- `URCLEmitter.br_gt_s`: `raise NotImplementedError()`. -/
def URCL.br_gt_s (_st : EmitSt) (_target : String) : Except String EmitSt :=
  .error ("NotImplementedError")

/-- `URCLEmitter.br_le_s`: `raise NotImplementedError()`. -/
def URCL.br_le_s (_st : EmitSt) (_target : String) : Except String EmitSt :=
  .error ("NotImplementedError")

/-- `URCLEmitter.br_ge_s`: `raise NotImplementedError()`. -/
def URCL.br_ge_s (_st : EmitSt) (_target : String) : Except String EmitSt :=
  .error ("NotImplementedError")

/-! ## `Callable.Emit` (src/compiler.py lines 597-614) -/

/-- A `Local` after resolution. -/
structure LocalD : Type where
  name : String
  ty : Ty
  initial : Option Int

/-- The per-local prologue of `Callable.Emit`: locals without an initializer
reserve space with `add_sp(size)`; for an initializer the source runs
`for _ in local.GetType().GetSize(): emitter.push(value)` — iterating over the
`int` returned by `GetSize`, which raises `TypeError` in Python before any
push happens. -/
def Callable.emitLocal (st : EmitSt) (l : LocalD) : Except String EmitSt :=
  match l.initial with
  | none => .ok (URCL.add_sp st l.ty.size)
  | some _ => .error ("TypeError: int object is not iterable")

/-- The prologue loop `for i in range(self.GetLocalCount()): ...`. -/
def Callable.emitLocals (st : EmitSt) : List LocalD → Except String EmitSt
  | [] => .ok st
  | l :: rest => do Callable.emitLocals (← Callable.emitLocal st l) rest

/-- `Callable.Emit` up to and including the locals prologue (label mark, push
old BP, copy SP into BP, then the per-local loop); the statement body and the
epilogue that follow are beyond the claims about the prologue. -/
def Callable.emitPrologue (name : String) (locals : List LocalD) (st : EmitSt) :
    Except String EmitSt :=
  Callable.emitLocals (URCL.st_bp (URCL.ld_sp (URCL.ld_bp (URCL.markLabel st name)))) locals

/-! ## The peephole optimizer (src/emitters/urcl.py lines 8-193, 232-279)

`URCLEmitter.commit` with `optimize=True` runs, over the instruction list:
1. one forward pass dispatching each instruction to the FIRST `StackOptimizer`
   whose regex (`^...$` against the uppercased opcode) matches, carrying the
   known-register dictionary and the virtual stack;
2. a rescanning loop of the `PairOptimizer`/`MonoOptimizer` rewrites;
3. the `CodeOptimizer` (`LabelOptimizer`) loop;
then writes every non-`nop` instruction.  Loops 2 and 3 have no termination
argument in the source, so they are modelled with explicit fuel: running out
of fuel is an error distinct from every error the source can raise, hence an
`ok` result here is a faithful run of the source. -/

/-- A value tracked by the optimizer: a Python `int` or `str` (a `None` entry
is the surrounding `Option`). -/
inductive OptVal : Type where
  | intV (n : Int) : OptVal
  | strV (s : String) : OptVal
  deriving DecidableEq

abbrev VStack : Type := List (Option OptVal)

/-- The `registers` dict: name (already uppercased by `_get_reg`/`_set_reg`)
to recorded value, which may itself be `None`. -/
abbrev RegState : Type := List (String × Option OptVal)

def regsFind (regs : RegState) (k : String) : Option (Option OptVal) :=
  match regs.find? (fun e => e.fst == k) with
  | some e => some e.snd
  | none => none

def regsStore (regs : RegState) (k : String) (v : Option OptVal) : RegState :=
  if (regs.find? (fun e => e.fst == k)).isSome then
    regs.map (fun e => if e.fst = k then (k, v) else e)
  else regs ++ [(k, v)]

/-- `_get_reg` in `commit`: `R0` always reads 0; otherwise the dict entry, or
`None` when absent. -/
def getReg (regs : RegState) (name : String) : Option OptVal :=
  let n := pyUpper name
  if n = "R0" then some (.intV 0)
  else match regsFind regs n with
  | some v => v
  | none => none

/-- `_set_reg` in `commit`: writes to `R0` are dropped. -/
def setReg (regs : RegState) (name : String) (v : Option OptVal) : RegState :=
  let n := pyUpper name
  if n = "R0" then regs else regsStore regs n v

/-- `get_constant_operand` on a string operand: Python `int(operand)`. -/
def get_constant_operand (operand : String) : Option Int := pyInt operand 10

/-- `is_readonly_reg_instruction`: first token starts with `.` or `//`, or its
uppercase form starts with one of the prefixes of the regex
`(B(R[ELGZ])|([LG]E)|(N[EZ]))|(JMP)|(CAL)|(PSH)|(STR)` (`re.match` anchors at
the start only). -/
def is_readonly_reg_instruction (inst : Inst) : Bool :=
  let w := inst.getD 0 ("")
  pyStartsWith w (".") || pyStartsWith w ("//") ||
  (let u := pyUpper w
   pyStartsWith u ("BRE") || pyStartsWith u ("BRL") || pyStartsWith u ("BRG") ||
   pyStartsWith u ("BRZ") || pyStartsWith u ("LE") || pyStartsWith u ("GE") ||
   pyStartsWith u ("NE") || pyStartsWith u ("NZ") || pyStartsWith u ("JMP") ||
   pyStartsWith u ("CAL") || pyStartsWith u ("PSH") || pyStartsWith u ("STR"))

/-- Full match of `^\w.*$`: the first character is a word character. -/
def matchesWordAny (s : String) : Bool :=
  match s.data with
  | [] => false
  | c :: _ => c.isAlphanum || c = '_'

/-- `PushStackOptimizer.optimize` (regex `PSH`): a constant operand is pushed
on the virtual stack and the instruction becomes `nop`; otherwise a register
or `SP` operand pushes its recorded value, anything else its symbolic name —
and in both of those cases the instruction is left in place.  (Operands are
always strings here, so the `isinstance(value, int)` arm of the source never
fires.)  Registers are never written, so only the instruction and stack are
returned. -/
def PushStackOptimizer.optimize (inst : Inst) (regs : RegState) (stack : VStack) :
    Inst × VStack :=
  match parse_value (inst.getD 1 ("")) with
  | .ok n => (["nop"], some (.intV n) :: stack)
  | .error _ =>
    let value := inst.getD 1 ("")
    if pyStartsWith (pyUpper value) ("R") || pyUpper value == "SP" then
      (inst, getReg regs value :: stack)
    else
      (inst, some (.strV value) :: stack)

/-- `PopStackOptimizer.optimize` (regex `POP`): pop the virtual stack (`None`
when empty); if the destination already holds that (non-`None`) value the
instruction becomes `pop R0`, otherwise the value is recorded; an integer
value turns the instruction into `nop`. -/
def PopStackOptimizer.optimize (inst : Inst) (regs : RegState) (stack : VStack) :
    Inst × RegState × VStack :=
  let (value, stack') : Option OptVal × VStack :=
    match stack with
    | [] => (none, [])
    | v :: rest => (v, rest)
  let dest := inst.getD 1 ("")
  let (instA, regsA) :=
    if getReg regs dest = value ∧ value ≠ none then (["pop", "R0"], regs)
    else (inst, setReg regs dest value)
  let instB :=
    match value with
    | some (.intV _) => ["nop"]
    | _ => instA
  (instB, regsA, stack')

/-- Pop `n` entries for `ADD SP SP n`, raising on virtual-stack underflow. -/
def popN : Nat → VStack → Except String VStack
  | 0, stack => .ok stack
  | n + 1, stack =>
    match stack with
    | [] => .error ("Virtual stack underflow.")
    | _ :: rest => popN n rest

/-- Shrink the stack to `newLen` for `SUB SP R3 n` (`while len(stack) >
newStackLength: ...`); the source pops guarded by a length check whose
`else` raises underflow, reachable only once a negative target has drained
the stack (that case errors before this function is called). -/
def shrinkTo (newLen : Int) : VStack → VStack
  | [] => []
  | v :: rest => if ((v :: rest).length : Int) > newLen then shrinkTo newLen rest else v :: rest

/-- `GeneralStackOptimizer.optimize` (regex `\w.*`): substitute known operand
values, then track the effects of `CAL`, stack-pointer arithmetic and `RET`
on the known registers and the virtual stack. -/
def GeneralStackOptimizer.optimize (inst : Inst) (regs : RegState) (stack : VStack) :
    Except String (Inst × RegState × VStack) :=
  let readonly := is_readonly_reg_instruction inst
  let startJ := if readonly then 1 else 2
  let inst := inst.mapIdx (fun j tok =>
    if startJ ≤ j then
      match getReg regs tok with
      | some (.intV n) => pyStrInt n
      | some (.strV s) => if s = "BP" then "R3" else tok
      | none => tok
    else tok)
  if inst.length > 1 then
    if pyUpper (inst.getD 0 ("")) = "CAL" then .ok (inst, [], stack)
    else if !readonly then
      let afterSp : Except String VStack :=
        if inst.getD 1 ("") = "SP" then
          if inst.length = 4 ∧ pyUpper (inst.getD 2 ("")) = "SP" ∧
              (get_constant_operand (inst.getD 3 (""))).isSome then
            match get_constant_operand (inst.getD 3 ("")) with
            | some c =>
              if pyUpper (inst.getD 0 ("")) = "ADD" then popN c.toNat stack
              else if pyUpper (inst.getD 0 ("")) = "SUB" then
                .ok ((List.replicate c.toNat (none : Option OptVal)) ++ stack)
              else .error ("This type of stack modification is not allowed.")
            | none => .error ("This type of stack modification is not allowed.")
          else if inst.length = 4 ∧ pyUpper (inst.getD 2 ("")) = "R3" ∧
              (get_constant_operand (inst.getD 3 (""))).isSome then
            match get_constant_operand (inst.getD 3 ("")) with
            | some c =>
              if pyUpper (inst.getD 0 ("")) = "SUB" then
                if c + 1 < 0 then .error ("Virtual stack underflow.")
                else .ok (shrinkTo (c + 1) stack)
              else .error ("This type of stack modification is not allowed.")
            | none => .error ("This type of stack modification is not allowed.")
          else .error ("This type of stack modification is not allowed.")
        else .ok stack
      match afterSp with
      | .ok stack' => .ok (inst, setReg regs (inst.getD 1 ("")) none, stack')
      | .error e => .error e
    else .ok (inst, regs, stack)
  else if pyUpper (inst.getD 0 ("")) = "RET" then
    .ok (inst, regsStore [] ("SP") (some (.strV ("BP"))), stack)
  else .ok (inst, regs, stack)

/-- `StackVerificationOptimizer.optimize` (regex `RET`): requires an empty
virtual stack. -/
def StackVerificationOptimizer.optimize (inst : Inst) (regs : RegState) (stack : VStack) :
    Except String (Inst × RegState × VStack) :=
  if stack ≠ [] then .error ("Stack must be empty before returning.")
  else .ok (inst, regs, stack)

/-- One step of the first `commit` loop: the optimizers are tried in their
constructor-list order — `PSH`, `POP`, `\w.*`, `RET` — and only the first
whose regex matches the uppercased opcode runs (the loop `break`s). -/
def stackStep (regs : RegState) (stack : VStack) (inst : Inst) :
    Except String (Inst × RegState × VStack) :=
  let w := pyUpper (inst.getD 0 (""))
  if w = "PSH" then
    let (inst', stack') := PushStackOptimizer.optimize inst regs stack
    .ok (inst', regs, stack')
  else if w = "POP" then .ok (PopStackOptimizer.optimize inst regs stack)
  else if matchesWordAny w then GeneralStackOptimizer.optimize inst regs stack
  else if w = "RET" then StackVerificationOptimizer.optimize inst regs stack
  else .ok (inst, regs, stack)

/-- The whole first loop `for i in range(len(self._insts)): ...` (each
optimizer only rewrites the instruction at the current index). -/
def stackPass (regs : RegState) (stack : VStack) :
    List Inst → Except String (List Inst × RegState × VStack)
  | [] => .ok ([], regs, stack)
  | inst :: rest => do
    let (inst', regs', stack') ← stackStep regs stack inst
    let (rest', regs'', stack'') ← stackPass regs' stack' rest
    .ok (inst' :: rest', regs'', stack'')

/-- The `registers` dict starts as `{ "SP": "BP" }` and the stack empty. -/
def commitStackPass (insts : List Inst) : Except String (List Inst × RegState × VStack) :=
  stackPass [("SP", some (.strV ("BP")))] [] insts

/-- `URCLEmitter._next`: the next index that is not a label (unless allowed),
a comment, or a `nop`. -/
def nextIdx (insts : List Inst) (index : Nat) (allowLabels : Bool) : Option Nat :=
  match (insts.drop (index + 1)).findIdx? (fun inst =>
      let w := inst.getD 0 ("")
      !((pyStartsWith w (".") && !allowLabels) || pyStartsWith w ("//") ||
        pyUpper w == "NOP")) with
  | some k => some (index + 1 + k)
  | none => none

/-- Full match of `^(ADD)|(SUB)$` — the alternation binds loosely, so this is
"starts with `ADD` or ends with `SUB`". -/
def matchesAddSub (w : String) : Bool := pyStartsWith w ("ADD") || pyEndsWith w ("SUB")

/-- `PushFollowedByPopOptimizer.optimize` (regexes `PSH` then `POP`): always
fires; a push popped into the same name disappears, otherwise the pair fuses
into a `mov`. -/
def PushFollowedByPop.optimize (cur nxt : Nat) (insts : List Inst) : List Inst :=
  let curInst := insts.getD cur []
  let nxtInst := insts.getD nxt []
  let insts :=
    if nxtInst.getD 1 ("") = curInst.getD 1 ("") then insts.eraseIdx nxt
    else insts.set nxt ["mov", nxtInst.getD 1 (""), curInst.getD 1 ("")]
  insts.eraseIdx cur

/-- `RepeatedAddAndSubtractOptimizer.optimize`: two constant `ADD`/`SUB`s on
the same destination fuse. -/
def RepeatedAddSub.optimize (cur nxt : Nat) (insts : List Inst) : Option (List Inst) :=
  let curInst := insts.getD cur []
  let nxtInst := insts.getD nxt []
  match get_constant_operand (curInst.getD 3 ("")), get_constant_operand (nxtInst.getD 3 ("")) with
  | some a0, some b0 =>
    if curInst.getD 1 ("") = nxtInst.getD 2 ("") ∧ curInst.getD 1 ("") = nxtInst.getD 1 ("") then
      let a := if pyUpper (curInst.getD 0 ("")) = "SUB" then -a0 else a0
      let b := if pyUpper (nxtInst.getD 0 ("")) = "SUB" then -b0 else b0
      let value := a + b
      let repl :=
        if value < 0 then ["sub", nxtInst.getD 1 (""), curInst.getD 2 (""), pyStrInt (-value)]
        else if value > 0 then ["add", nxtInst.getD 1 (""), curInst.getD 2 (""), pyStrInt value]
        else ["mov", nxtInst.getD 1 (""), curInst.getD 2 ("")]
      some ((insts.set cur repl).eraseIdx nxt)
    else none
  | _, _ => none

/-- `OverwrittenResultOptimizer.optimize`: a result overwritten by the next
register-writing instruction without being read is dropped. -/
def OverwrittenResult.optimize (cur nxt : Nat) (insts : List Inst) : Option (List Inst) :=
  let curInst := insts.getD cur []
  let nxtInst := insts.getD nxt []
  if !(is_readonly_reg_instruction curInst || is_readonly_reg_instruction nxtInst) ∧
      curInst.length > 1 ∧ nxtInst.length > 1 ∧
      curInst.getD 1 ("") = nxtInst.getD 1 ("") ∧
      ((nxtInst.drop 2).all (fun tok => tok != curInst.getD 1 (""))) then
    some (insts.eraseIdx cur)
  else none

/-- `JumpNextOptimizer.optimize`: a jump to the label that directly follows. -/
def JumpNext.optimize (cur nxt : Nat) (insts : List Inst) : Option (List Inst) :=
  let curInst := insts.getD cur []
  let nxtInst := insts.getD nxt []
  if curInst.getD 1 ("") = nxtInst.getD 0 ("") then some (insts.eraseIdx cur) else none

/-- `VoidMoveOptimizer.optimize` (regex `MOV`): drop self-moves and moves into
`R0`. -/
def VoidMove.optimize (i : Nat) (insts : List Inst) : Option (List Inst) :=
  let inst := insts.getD i []
  if inst.getD 1 ("") = inst.getD 2 ("") ∨ inst.getD 1 ("") = "R0" then
    some (insts.eraseIdx i)
  else none

/-- One attempt of the second `commit` loop at index `i`: the pair and mono
optimizers of the default list in order (`PushFollowedByPop`,
`RepeatedAddAndSubtract`, `OverwrittenResult`, `JumpNext`, `VoidMove`; the
default list has no `CommentOptimizer`), returning the rewritten list of the
first that fires. -/
def pairMonoTry (i : Nat) (insts : List Inst) : Option (List Inst) :=
  let word := fun (k : Nat) => pyUpper ((insts.getD k []).getD 0 (""))
  let tryPair := fun (cond : Nat → Nat → Bool) (allowLabels : Bool)
      (act : Nat → Nat → Option (List Inst)) =>
    match nextIdx insts i allowLabels with
    | some n => if cond i n then act i n else none
    | none => none
  (tryPair (fun c n => word c == "PSH" && word n == "POP") false
    (fun c n => some (PushFollowedByPop.optimize c n insts))).orElse fun _ =>
  (tryPair (fun c n => matchesAddSub (word c) && matchesAddSub (word n)) false
    (fun c n => RepeatedAddSub.optimize c n insts)).orElse fun _ =>
  (tryPair (fun c n => matchesWordAny (word c) && matchesWordAny (word n)) false
    (fun c n => OverwrittenResult.optimize c n insts)).orElse fun _ =>
  (tryPair (fun c n => word c == "JMP" && pyStartsWith ((insts.getD n []).getD 0 ("")) (".")) true
    (fun c n => JumpNext.optimize c n insts)).orElse fun _ =>
  (if word i = "MOV" then VoidMove.optimize i insts else none)

/-- The second `commit` loop: advance through the list, restarting from 0
whenever a rewrite fired.  Fuel exhaustion is reported as its own error. -/
def pairMonoLoop : Nat → Nat → List Inst → Except String (List Inst)
  | 0, _, _ => .error ("out of fuel")
  | fuel + 1, i, insts =>
    if i < insts.length then
      match pairMonoTry i insts with
      | some insts' => pairMonoLoop fuel 0 insts'
      | none => pairMonoLoop fuel (i + 1) insts
    else .ok insts

/-- `LabelOptimizer.optimize`: drop every `.__`-prefixed label instruction
whose name never occurs as an operand; reports whether anything changed. -/
def LabelOptimizer.optimize (insts : List Inst) : List Inst × Bool :=
  let used := insts.foldl (fun acc inst =>
    acc ++ (inst.drop 1).filter (fun tok => pyStartsWith tok (".__"))) []
  let insts' := insts.filter (fun inst =>
    !(pyStartsWith (inst.getD 0 ("")) (".__") && !(used.contains (inst.getD 0 ("")))))
  (insts', insts'.length != insts.length)

/-- The third `commit` loop: rerun the `CodeOptimizer` until nothing changes. -/
def codeLoop : Nat → List Inst → Except String (List Inst)
  | 0, _ => .error ("out of fuel")
  | fuel + 1, insts =>
    match LabelOptimizer.optimize insts with
    | (insts', true) => codeLoop fuel insts'
    | (insts', false) => .ok insts'

/-- `URCLEmitter.commit` with `optimize=True`: the three optimizer phases,
then every instruction whose opcode is not `NOP` is written out as its
space-joined tokens. -/
def commit (insts : List Inst) : Except String (List String) := do
  let (insts, _, _) ← commitStackPass insts
  let fuel := (insts.length + 1) * (insts.length + 1) * (insts.length + 1)
  let insts ← pairMonoLoop fuel 0 insts
  let insts ← codeLoop (insts.length + 1) insts
  .ok ((insts.filter (fun inst => pyUpper (inst.getD 0 ("")) ≠ "NOP")).map
    (fun inst => String.intercalate (" ") inst))

/-! ## The expression parser (src/compiler.py lines 7-17 and 847-922) -/

/-- The `_operators` table: precedence, left-associativity, operation name,
operand count. -/
def operatorsTable : List (String × (Nat × Bool × String × Nat)) :=
  [("+", (0, false, "__ADD_TYPE1_TYPE2", 2)),
   ("-", (0, false, "__SUB_TYPE1_TYPE2", 2)),
   ("*", (0, false, "__MUL_TYPE1_TYPE2", 2)),
   ("/", (0, false, "__DIV_TYPE1_TYPE2", 2)),
   ("<<", (0, false, "__LSHIFT_TYPE1_TYPE2", 2)),
   (">>", (0, false, "__RSHIFT_TYPE1_TYPE2", 2)),
   ("AND", (0, false, "__AND_TYPE1_TYPE2", 2)),
   ("OR", (0, false, "__OR_TYPE1_TYPE2", 2)),
   ("XOR", (0, false, "__XOR_TYPE1_TYPE2", 2))]

/-- Exact-key lookup in `_operators` (`_operators[name]`). -/
def operatorEntry (k : String) : Option (Nat × Bool × String × Nat) :=
  (operatorsTable.find? (fun e => e.fst == k)).map (fun e => e.snd)

/-- `isOperator` inside `parse_expression`: uppercased name is `AS` or a key
of `_operators`. -/
def isOperatorTok (t : String) : Bool :=
  pyUpper t == "AS" || (operatorEntry (pyUpper t)).isSome

/-- `getPrecedence` (`_operators[name][0]`, raw name: a `KeyError` raise is
possible and modelled as an error). -/
def getPrec (name : String) : Except String Nat :=
  match operatorEntry name with
  | some e => .ok e.fst
  | none => .error ("KeyError")

/-- `isLeftAssociative` (`_operators[name][1]`). -/
def getLeftAssoc (name : String) : Except String Bool :=
  match operatorEntry name with
  | some e => .ok e.snd.fst
  | none => .error ("KeyError")

/-- Python word character `\w` (ASCII). -/
def isWordChar (c : Char) : Bool := c.isAlphanum || c = '_'

/-- One match attempt of the token regex
`(?:\w[\w\d\.\*]*\(?)|(?:\-?\d[\w\d\.]*)|(?:\s+)|(?:[\+\-\*\/\.]+|(?:AS))|(?:\()|(?:\))`
at the head of the text, trying the alternatives in order (note: no `<` or
`>` appears anywhere in it). -/
def tokenMatch (cs : List Char) : Option (List Char × List Char) :=
  match cs with
  | [] => none
  | c :: rest =>
    if isWordChar c then
      let (run, rest2) := rest.span (fun d => isWordChar d || d = '.' || d = '*')
      match rest2 with
      | '(' :: rest3 => some (c :: run ++ ['('], rest3)
      | _ => some (c :: run, rest2)
    else if c = '-' then
      match rest with
      | d :: rest1 =>
        if d.isDigit then
          let (run, rest2) := rest1.span (fun e => isWordChar e || e = '.')
          some (c :: d :: run, rest2)
        else
          let (run, rest2) := cs.span (fun e => e ∈ ['+', '-', '*', '/', '.'])
          some (run, rest2)
      | [] => some ([c], [])
    else if c.isWhitespace then
      let (run, rest2) := cs.span Char.isWhitespace
      some (run, rest2)
    else if c ∈ ['+', '*', '/', '.'] then
      let (run, rest2) := cs.span (fun e => e ∈ ['+', '-', '*', '/', '.'])
      some (run, rest2)
    else if c = '(' then some (['('], rest)
    else if c = ')' then some ([')'], rest)
    else none

/-- `re.findall` over the line: at each position take the first matching
alternative (greedy), otherwise advance one character.  Every match consumes
at least one character, so the character count is enough fuel. -/
def tokenizeFuel : Nat → List Char → List String
  | 0, _ => []
  | _, [] => []
  | fuel + 1, cs =>
    match tokenMatch cs with
    | some (tok, rest) => (⟨tok⟩ : String) :: tokenizeFuel fuel rest
    | none => tokenizeFuel fuel cs.tail

def tokenize (line : String) : List String := tokenizeFuel line.data.length line.data

/-- Python `s.isspace()`. -/
def pyIsSpace (s : String) : Bool := !s.data.isEmpty && s.data.all Char.isWhitespace

/-- The expression AST.  `rawTok` models a bare string left on the untyped
Python evaluation stack (the `")"` argument-list marker). -/
inductive Expr : Type where
  | constE (value : Int) (tyName : String) : Expr
  | varE (target : String) : Expr
  | unaryE (op : String) (e : Expr) : Expr
  | binaryE (op : String) (a b : Expr) : Expr
  | castE (tyName : String) (e : Expr) : Expr
  | callE (name : String) (args : List Expr) : Expr
  | rawTok (s : String) : Expr

/-- The operator-arrival pops of the shunting loop: pop while the top is not
`(` and has higher precedence (or equal, for a left-associative incoming
token); precedence lookups can raise `KeyError` exactly as in the source. -/
def shuntPops (token : String) : List String → List String →
    Except String (List String × List String)
  | [], queue => .ok ([], queue)
  | top :: rest, queue =>
    if top = "(" then .ok (top :: rest, queue)
    else do
      let pt ← getPrec top
      let ptok ← getPrec token
      if pt > ptok then shuntPops token rest (queue ++ [top])
      else do
        let la ← getLeftAssoc token
        if la ∧ pt = ptok then shuntPops token rest (queue ++ [top])
        else .ok (top :: rest, queue)

/-- The `")"`-token pops: accessing the top of an emptied stack is the
Python `IndexError`; popping the matching `(` ends the loop. -/
def closeParen : List String → List String → Except String (List String × List String)
  | [], _queue => .error ("IndexError")
  | top :: rest, queue =>
    if top = "(" then .ok (rest, queue)
    else closeParen rest (queue ++ [top])

/-- One token of the first `parse_expression` loop (infix to postfix). -/
def shuntStep (acc : List String × List String) (token : String) :
    Except String (List String × List String) :=
  let (stack, queue) := acc
  if pyIsSpace token then .ok (stack, queue)
  else if isOperatorTok token then do
    let (stack', queue') ← shuntPops token stack queue
    .ok (token :: stack', queue')
  else if pyLen token > 1 ∧ pyEndsWith token ("(") then
    .ok ("(" :: token :: stack, queue ++ [")"])
  else if token = "(" then .ok ("(" :: stack, queue)
  else if token = ")" then
    match stack with
    | [] => .error ("Missing \"(\".")
    | _ => do
      let (stack1, queue1) ← closeParen stack queue
      match stack1 with
      | top :: rest =>
        if pyLen top > 0 ∧ pyEndsWith top ("(") then .ok (rest, queue1 ++ [top])
        else .ok (stack1, queue1)
      | [] => .ok ([], queue1)
  else .ok (stack, queue ++ [token])

/-- The drain after the first loop: a leftover `(` is an error. -/
def shuntDrain : List String → List String → Except String (List String)
  | [], queue => .ok queue
  | top :: rest, queue =>
    if top = "(" then .error ("Missing \")\".")
    else shuntDrain rest (queue ++ [top])

def isCloseParenE : Expr → Bool
  | .rawTok s => s == ")"
  | _ => false

/-- The argument pops of a call token in the second loop. -/
def collectArgs : List Expr → List Expr → Except String (List Expr × List Expr)
  | [], _args => .error ("IndexError")
  | top :: rest, args =>
    if isCloseParenE top then .ok (args, rest)
    else
      match rest with
      | [] => .error ("Missing argument list terminator.")
      | _ => collectArgs rest (args ++ [top])

/-- One token of the second `parse_expression` loop (postfix evaluation). -/
def buildStep (stack : List Expr) (token : String) : Except String (List Expr) :=
  if token = ")" then .ok (.rawTok (")") :: stack)
  else if isOperatorTok token then
    if pyUpper token = "AS" then
      match stack with
      | [] => .error ("Expected 2 operands for \"" ++ token ++ "\" operator.")
      | ty :: rest =>
        match rest with
        | [] => .error ("IndexError")
        | expr :: rest2 =>
          match ty with
          | .varE name => .ok (.castE name expr :: rest2)
          | _ => .error ("Expected type name for second operand of \"AS\".")
    else
      match operatorEntry token with
      | none => .error ("KeyError")
      | some entry =>
        let argCount := entry.snd.snd.snd
        if argCount = 1 then
          match stack with
          | [] => .error ("Expected 1 operand for \"" ++ token ++ "\" operator.")
          | a :: rest => .ok (.unaryE token a :: rest)
        else if argCount = 2 then
          match stack with
          | b :: a :: rest => .ok (.binaryE token a b :: rest)
          | _ => .error ("Expected 2 operands for \"" ++ token ++ "\" operator.")
        else .ok stack
  else if pyLen token > 1 ∧ pyEndsWith token ("(") then
    match stack with
    | [] => .error ("Invalid call expression.")
    | _ => do
      let (args, stack') ← collectArgs stack []
      .ok (.callE (⟨token.data.dropLast⟩ : String) args.reverse :: stack')
  else
    match parse_value token with
    | .ok n => .ok (.constE n ("Integer") :: stack)
    | .error _ => .ok (.varE token :: stack)

/-- `parse_expression` (src/compiler.py lines 847-922). -/
def parse_expression (line : String) : Except String Expr := do
  let tokens := tokenize line
  let (stack, queue) ← tokens.foldlM shuntStep ([], [])
  let queue ← shuntDrain stack queue
  let stack2 ← queue.foldlM buildStep []
  match stack2 with
  | [e] => .ok e
  | _ => .error ("Expressions must produce one value.")

/-! ## Variable resolution (src/compiler.py lines 97-111, 337-357, 584-595) -/

/-- Python `name.split(".")`. -/
def splitDotAux : List Char → List Char → List String
  | [], acc => [(⟨acc.reverse⟩ : String)]
  | c :: rest, acc =>
    if c = '.' then (⟨acc.reverse⟩ : String) :: splitDotAux rest []
    else splitDotAux rest (c :: acc)

def pySplitDot (s : String) : List String := splitDotAux s.data []

/-- A resolved variable as `Callable.GetVariable`/`Variable.GetVariable`
return it: a local, a parameter, or a `Field` produced by
`ComplexType.GetField(index, relativeTo)`. -/
inductive VarTarget : Type where
  | locV (i : Nat) : VarTarget
  | parV (i : Nat) : VarTarget
  | fieldV (parent : VarTarget) (ty : Ty) (name : String) (index : Nat) (offset : Nat) : VarTarget

/-- The callable being emitted: its resolved locals and parameters. -/
structure CallCtx : Type where
  locals : List LocalD
  args : List ParamD

def VarTarget.ty (ctx : CallCtx) : VarTarget → Ty
  | .locV i => (ctx.locals.getD i ⟨"", .emptyT, none⟩).ty
  | .parV i => (ctx.args.getD i ⟨"", .emptyT, false⟩).resolvedTy
  | .fieldV _ t _ _ _ => t

def VarTarget.isByRef (ctx : CallCtx) : VarTarget → Bool
  | .parV i => (ctx.args.getD i ⟨"", .emptyT, false⟩).ref
  | _ => false

/-- `ComplexType.GetField(index, relativeTo)`. -/
def ComplexType.getFieldAt (fields : List FieldD) (i : Nat) (parent : VarTarget) : VarTarget :=
  let f := fields.getD i (.mk ("") .emptyT 0)
  .fieldV parent f.ty f.name f.index (ComplexType.getFieldIndexOffset fields i)

def undefinedVarMsg (path : List String) : String :=
  "Undefined variable \"" ++ String.intercalate (".") path ++ "\"."

/-- `Variable.GetVariable(name)` on a resolved variable, over the already
split field path (the source joins and re-splits on `"."` at each level):
by-reference pointers are peeled, a matching field of a complex type is
returned or descended into, and anything else raises the undefined-variable
error. -/
def Variable.getVariable (ctx : CallCtx) : List String → VarTarget → Except String VarTarget
  | path, v =>
    let ty0 := VarTarget.ty ctx v
    let ty := if VarTarget.isByRef ctx v then
        (match ty0 with
         | .pointerT r => r
         | t => t)
      else ty0
    match ty with
    | .complexT _ fields =>
      (match fields.findIdx? (fun f => f.name == path.headD ("")) with
       | some i =>
         let field := ComplexType.getFieldAt fields i v
         (match path with
          | [] => .ok field
          | [_] => .ok field
          | _ :: rest => Variable.getVariable ctx rest field)
       | none => .error (undefinedVarMsg path))
    | _ => .error (undefinedVarMsg path)

/-- `Callable.GetVariable(name)`: scan the locals, then the parameters, for
the first component of the dotted name; when nothing matches the method falls
off its end and Python returns `None`. -/
def Callable.GetVariable (ctx : CallCtx) (name : String) : Except String (Option VarTarget) :=
  let parts := pySplitDot name
  match ctx.locals.findIdx? (fun l => l.name == parts.headD ("")) with
  | some i =>
    if parts.length = 1 then .ok (some (.locV i))
    else (Variable.getVariable ctx parts.tail (.locV i)).map some
  | none =>
    match ctx.args.findIdx? (fun p => p.name == parts.headD ("")) with
    | some i =>
      if parts.length = 1 then .ok (some (.parV i))
      else (Variable.getVariable ctx parts.tail (.parV i)).map some
    | none => .ok none

/-- `URCLEmitter.add` (pop two, push the sum). -/
def URCL.add (st : EmitSt) : EmitSt :=
  (((((st.beginInst).emit ["pop", "R2"]).emit ["pop", "R1"]).emit
    ["add", "R1", "R1", "R2"]).emit ["psh", "R1"]).endInst

/-- `URCLEmitter.sub` (pop two, push the difference). -/
def URCL.sub (st : EmitSt) : EmitSt :=
  (((((st.beginInst).emit ["pop", "R2"]).emit ["pop", "R1"]).emit
    ["sub", "R1", "R1", "R2"]).emit ["psh", "R1"]).endInst

/-- The offset of `Local.EmitLoadAddress`: the loop adds every local size up
to and including the local itself, then stops. -/
def Local.emitOffset (locals : List LocalD) (i : Nat) : Nat :=
  ((locals.take (i + 1)).map (fun l => l.ty.size)).sum

/-- `GetSize` of a resolved variable (`GetType().GetSize()`). -/
def VarTarget.size (ctx : CallCtx) (v : VarTarget) : Nat := (VarTarget.ty ctx v).size

/-- `EmitLoadAddress` of a local, parameter, or field. -/
def VarTarget.emitLoadAddress (ctx : CallCtx) : VarTarget → EmitSt → EmitSt
  | .locV i, st => URCL.sub (URCL.push (URCL.ld_bp st) (Local.emitOffset ctx.locals i))
  | .parV i, st =>
    let st := URCL.add (URCL.push (URCL.ld_bp st) (Parameter.emitOffset ctx.args i))
    if (ctx.args.getD i ⟨"", .emptyT, false⟩).ref then
      URCL.ld_ptr st (VarTarget.size ctx (.parV i))
    else st
  | .fieldV parent _t _n _idx off, st =>
    URCL.add (URCL.push (VarTarget.emitLoadAddress ctx parent st) off)

/-- `EmitLoad` of a local, parameter, or field: load address, then
`ld_ptr(GetSize())`. -/
def VarTarget.emitLoad (ctx : CallCtx) (v : VarTarget) (st : EmitSt) : EmitSt :=
  URCL.ld_ptr (VarTarget.emitLoadAddress ctx v st) (VarTarget.size ctx v)

/-- `VariableExpression.Resolve` stores `context.GetVariable(target)` — which
may be `None` — and `VariableExpression.Emit` then raises
`"Type is not resolved."` unless the stored target is a `Variable`. -/
def VariableExpression.resolveAndEmit (ctx : CallCtx) (name : String) (st : EmitSt) :
    Except String EmitSt := do
  let target ← Callable.GetVariable ctx name
  match target with
  | some v => .ok (VarTarget.emitLoad ctx v st)
  | none => .error ("Type is not resolved.")

/-- The claim C4 phrases part of its conclusion as registers being "written";
an instruction writes a register when it is not one of the read-only shapes of
`is_readonly_reg_instruction` and the register is its destination operand. -/
def writesRegister (inst : Inst) (r : String) : Bool :=
  !is_readonly_reg_instruction inst && inst.getD 1 ("") == r

end GeneralBasic

namespace GeneralBasic

/-! ## Helper lemmas about the index loops -/

theorem foldl_add_map {α : Type} (f : α → Nat) :
    ∀ (l : List α) (c : Nat), l.foldl (fun a x => a + f x) c = c + (l.map f).sum := by
  intro l
  induction l with
  | nil => intro c; simp
  | cons x t ih => intro c; simp [ih, add_assoc]

theorem range_getD_sum {α : Type} (g : α → Nat) (d : α) :
    ∀ (l : List α) (j : Nat), j ≤ l.length →
      ((List.range j).map (fun k => g (l.getD k d))).sum = ((l.take j).map g).sum := by
  intro l
  induction l with
  | nil =>
    intro j hj
    have : j = 0 := by simpa using hj
    subst this
    simp
  | cons x t ih =>
    intro j hj
    cases j with
    | zero => simp
    | succ j' =>
      rw [List.range_succ_eq_map]
      simp only [List.map_cons, List.map_map, List.sum_cons, List.take_succ_cons]
      have htail : ((List.range j').map ((fun k => g ((x :: t).getD k d)) ∘ Nat.succ)) =
          (List.range j').map (fun k => g (t.getD k d)) := by
        apply List.map_congr_left

        intro k _
        rfl
      rw [htail, ih j' (by simpa using hj)]
      simp

theorem pyRangeDown_cons (n i : Nat) (h : i < n) :
    pyRangeDown n i = n :: pyRangeDown (n - 1) i := by
  unfold pyRangeDown
  have hn : n - i = (n - 1 - i) + 1 := by omega
  rw [hn, List.range_succ_eq_map]
  simp only [List.map_cons, List.map_map, Nat.sub_zero]
  congr 1
  apply List.map_congr_left
  intro k _
  simp only [Function.comp]
  omega

theorem pyRangeDown_mem_lt (n i j : Nat) (hn : 0 < n) (hj : j ∈ pyRangeDown (n - 1) i) :
    j < n := by
  unfold pyRangeDown at hj
  rcases List.mem_map.mp hj with ⟨k, _, rfl⟩
  omega

theorem pyRangeDown_getD_sum {α : Type} (g : α → Nat) (d : α) :
    ∀ (l : List α) (i : Nat), i < l.length →
      ((pyRangeDown (l.length - 1) i).map (fun j => g (l.getD j d))).sum =
        ((l.drop (i + 1)).map g).sum := by
  intro l
  induction l using List.reverseRecOn with
  | nil => intro i h; simp at h
  | append_singleton t a ih =>
    intro i h
    have hlen : (t ++ [a]).length = t.length + 1 := by simp
    by_cases hi : i = t.length
    · subst hi
      unfold pyRangeDown
      rw [hlen]
      simp
    · have hi' : i < t.length := by rw [hlen] at h; omega
      rw [hlen]
      have hstep : t.length + 1 - 1 = t.length := by omega
      rw [hstep, pyRangeDown_cons t.length i hi']
      simp only [List.map_cons, List.sum_cons]
      have hhead : (t ++ [a]).getD t.length d = a := by
        rw [List.getD_eq_getElem?_getD]
        simp
      have htail : (pyRangeDown (t.length - 1) i).map (fun j => g ((t ++ [a]).getD j d)) =
          (pyRangeDown (t.length - 1) i).map (fun j => g (t.getD j d)) := by
        apply List.map_congr_left
        intro j hjmem
        have hjlt : j < t.length := pyRangeDown_mem_lt t.length i j (by omega) hjmem
        rw [List.getD_eq_getElem?_getD, List.getD_eq_getElem?_getD]
        simp [List.getElem?_append, hjlt]
      rw [hhead, htail, ih i hi']
      have hdrop : (t ++ [a]).drop (i + 1) = t.drop (i + 1) ++ [a] := by
        rw [List.drop_append_of_le_length (by omega)]
      rw [hdrop]
      simp [Nat.add_comm]

theorem fieldsSize_eq (fields : List FieldD) :
    fieldsSize fields = (fields.map (fun f => f.ty.size)).sum := by
  induction fields with
  | nil => simp [fieldsSize]
  | cons f rest ih => cases f; simp [fieldsSize, FieldD.ty, ih]

theorem getFieldOffsetAux_spec :
    ∀ (fields : List FieldD) (acc i : Nat), i < fields.length →
      (∀ j, j < i →
        (fields.getD j (.mk ("") .emptyT 0)).name ≠ (fields.getD i (.mk ("") .emptyT 0)).name) →
      ComplexType.getFieldOffsetAux acc fields ((fields.getD i (.mk ("") .emptyT 0)).name) =
        some (acc + ((fields.take i).map (fun f => f.ty.size)).sum) := by
  intro fields
  induction fields with
  | nil => intro acc i h; simp at h
  | cons f rest ih =>
    intro acc i h hdist
    cases i with
    | zero => simp [ComplexType.getFieldOffsetAux]
    | succ i' =>
      have hne : ¬(f.name = ((f :: rest).getD (i' + 1) (.mk ("") .emptyT 0)).name) := by
        have := hdist 0 (Nat.succ_pos i')
        simpa using this
      rw [List.getD_cons_succ] at hne ⊢
      unfold ComplexType.getFieldOffsetAux
      rw [if_neg hne]
      rw [ih (acc + f.ty.size) i' (by simpa using h)
        (fun j hj => by
          have := hdist (j + 1) (by omega)
          simpa using this)]
      simp [add_assoc]

theorem findIdx?_none_of_all {α : Type} (p : α → Bool) :
    ∀ (l : List α), (∀ x ∈ l, p x = false) → l.findIdx? p = none := by
  intro l
  induction l with
  | nil => intro _; rfl
  | cons x t ih =>
    intro h
    rw [List.findIdx?_cons]
    rw [h x (by simp)]
    simp [ih (fun y hy => h y (by simp [hy]))]

/-! ## The claims -/

/-- C1: the spec says the optimizing `commit` requires an empty virtual stack
at every `RET` and aborts otherwise.  In the source, the stack-pass dispatch
tries the optimizers in list order and `break`s at the first regex match;
`GeneralStackOptimizer`'s regex `\w.*` matches `RET`, so
`StackVerificationOptimizer` (regex `RET`, listed after it) is unreachable:
every `RET` is handled by the general optimizer, and `commit` happily writes
output with `5` still on the virtual stack when the `ret` of
`[psh 5; ret]` is reached. -/
theorem ret_handled_by_general_optimizer_and_commit_succeeds :
    (∀ (regs : RegState) (stack : VStack) (inst : Inst),
      pyUpper (inst.getD 0 ("")) = "RET" →
      stackStep regs stack inst = GeneralStackOptimizer.optimize inst regs stack) ∧
    commitStackPass [["psh", "5"]] =
      .ok ([["nop"]], [("SP", some (.strV ("BP")))], [some (.intV 5)]) ∧
    commit [["psh", "5"], ["ret"]] = .ok (["ret"]) := by
  refine ⟨?_, by decide, by decide⟩
  intro regs stack inst h
  unfold stackStep
  rw [h]
  rfl

/-- C1 witness: the dispatch fact applied to a concrete `ret` with a
non-empty virtual stack. -/
theorem ret_handled_by_general_optimizer_witness :
    pyUpper (([["ret"]] : List Inst).headD [] |>.getD 0 ("")) = "RET" ∧
    stackStep [("SP", some (.strV ("BP")))] [some (.intV 5)] ["ret"] =
      GeneralStackOptimizer.optimize ["ret"] [("SP", some (.strV ("BP")))] [some (.intV 5)] :=
  ⟨by decide,
    ret_handled_by_general_optimizer_and_commit_succeeds.1
      [("SP", some (.strV ("BP")))] [some (.intV 5)] ["ret"] (by decide)⟩

/-- C2 counterexample: `mul_s` does not raise a not-implemented error — its
body is `self.mul_u()`, so it emits the unsigned multiply sequence. -/
theorem mul_s_emits_unsigned_multiply :
    URCL.mul_s EmitSt.empty = .ok (URCL.mul_u EmitSt.empty) ∧
    URCL.mul_s EmitSt.empty =
      .ok ⟨1, 0, [[".___urcl___0"], ["pop", "R2"], ["pop", "R1"],
        ["mlt", "R1", "R1", "R2"], ["psh", "R1"]]⟩ := by
  decide

/-- C2 amended: `div_s`, `rem_s`, the four signed comparisons and the four
signed branches raise `NotImplementedError` and emit nothing, while `mul_s`
instead delegates to `mul_u`. -/
theorem signed_ops_raise_except_mul_s (st : EmitSt) (target : String) :
    URCL.div_s st = .error ("NotImplementedError") ∧
    URCL.rem_s st = .error ("NotImplementedError") ∧
    URCL.cmp_lt_s st = .error ("NotImplementedError") ∧
    URCL.cmp_gt_s st = .error ("NotImplementedError") ∧
    URCL.cmp_le_s st = .error ("NotImplementedError") ∧
    URCL.cmp_ge_s st = .error ("NotImplementedError") ∧
    URCL.br_lt_s st target = .error ("NotImplementedError") ∧
    URCL.br_gt_s st target = .error ("NotImplementedError") ∧
    URCL.br_le_s st target = .error ("NotImplementedError") ∧
    URCL.br_ge_s st target = .error ("NotImplementedError") ∧
    URCL.mul_s st = .ok (URCL.mul_u st) :=
  ⟨rfl, rfl, rfl, rfl, rfl, rfl, rfl, rfl, rfl, rfl, rfl⟩

/-- C3: a local without an initializer reserves its size with `add_sp`, but a
local with an integer initializer makes the prologue raise `TypeError`: the
source iterates `for _ in local.GetType().GetSize()` over the `int` itself,
so the value is never pushed at all (for any type and any initializer). -/
theorem local_initializer_raises_type_error :
    Callable.emitPrologue ("f") [⟨"x", Ty.signedInt, some 5⟩] EmitSt.empty =
      .error ("TypeError: int object is not iterable") ∧
    Callable.emitPrologue ("g")
      [⟨"x", Ty.signedInt, none⟩,
       ⟨"y", Ty.complexT ("S") [.mk ("a") Ty.signedInt 0, .mk ("b") Ty.signedInt 1], none⟩]
      EmitSt.empty =
      .ok ⟨5, 0, [[".g"], [".___urcl___0"], ["psh", "R3"], [".___urcl___1"], ["psh", "SP"],
        [".___urcl___2"], ["pop", "R3"], [".___urcl___3"], ["sub", "SP", "SP", "1"],
        [".___urcl___4"], ["sub", "SP", "SP", "2"]]⟩ ∧
    (∀ (nm : String) (t : Ty) (v : Int) (st : EmitSt),
      Callable.emitLocal st ⟨nm, t, some v⟩ =
        .error ("TypeError: int object is not iterable")) :=
  ⟨by decide, by decide, fun _ _ _ _ => rfl⟩

/-- C4 counterexample: optimizing `[psh 3; pop R1; psh R1; pop R2]` leaves the
single instruction `psh R1` — not `mov R2 3` — and the `PSH` of a register
with known contents records the value on the virtual stack but is NOT
replaced with `nop`. -/
theorem optimize_sequence_not_single_mov :
    commit [["psh", "3"], ["pop", "R1"], ["psh", "R1"], ["pop", "R2"]] = .ok (["psh R1"]) ∧
    (["psh R1"] : List String) ≠ ["mov R2 3"] ∧
    PushStackOptimizer.optimize ["psh", "R1"]
      [("SP", some (.strV ("BP"))), ("R1", some (.intV 3))] [] =
      (["psh", "R1"], [some (.intV 3)]) := by
  decide

/-- C4 amended: a constant `PSH` is recorded and replaced with `nop`; a `PSH`
of a register with known contents records the known value but keeps the
instruction; the concrete list therefore optimizes to the single instruction
`psh R1`, and `R0`/`R3` are not written by the committed output. -/
theorem push_optimizer_amended_behaviour :
    (∀ (inst : Inst) (regs : RegState) (stack : VStack) (n : Int),
      parse_value (inst.getD 1 ("")) = .ok n →
      PushStackOptimizer.optimize inst regs stack = (["nop"], some (.intV n) :: stack)) ∧
    (∀ (s : String) (regs : RegState) (stack : VStack) (err : String),
      parse_value s = .error err → pyStartsWith (pyUpper s) ("R") = true →
      PushStackOptimizer.optimize ["psh", s] regs stack =
        (["psh", s], getReg regs s :: stack)) ∧
    commit [["psh", "3"], ["pop", "R1"], ["psh", "R1"], ["pop", "R2"]] = .ok (["psh R1"]) ∧
    writesRegister ["psh", "R1"] ("R0") = false ∧
    writesRegister ["psh", "R1"] ("R3") = false := by
  refine ⟨?_, ?_, by decide, by decide, by decide⟩
  · intro inst regs stack n h
    unfold PushStackOptimizer.optimize
    rw [h]
  · intro s regs stack err h hr
    unfold PushStackOptimizer.optimize
    simp only [List.getD_cons_succ, List.getD_cons_zero, h, hr]
    simp

/-- C4 witness: the constant case applied at `psh 3`. -/
theorem push_optimizer_amended_witness :
    parse_value (((["psh", "3"] : Inst).getD 1 (""))) = .ok 3 ∧
    PushStackOptimizer.optimize ["psh", "3"] [] [] = (["nop"], some (.intV 3) :: []) :=
  ⟨by decide, push_optimizer_amended_behaviour.1 ["psh", "3"] [] [] 3 (by decide)⟩

/-- C5: the token regex of `parse_expression` contains no `<` or `>`, so the
`<<`/`>>` of `_operators` can never be produced as tokens; `a << b` and
`a >> b` tokenize to just the two identifiers (plus skipped whitespace) and
parsing fails with "Expressions must produce one value." instead of building
a `BinaryOperandExpression` — while `a + b`, whose operator the regex does
match, parses fine. -/
theorem shift_tokens_dropped :
    tokenize ("a << b") = ["a", " ", " ", "b"] ∧
    tokenize ("a >> b") = ["a", " ", " ", "b"] ∧
    parse_expression ("a << b") = .error ("Expressions must produce one value.") ∧
    parse_expression ("a >> b") = .error ("Expressions must produce one value.") ∧
    (operatorEntry ("<<")).isSome = true ∧
    (operatorEntry (">>")).isSome = true ∧
    parse_expression ("a + b") = .ok (.binaryE ("+") (.varE ("a")) (.varE ("b"))) :=
  ⟨by decide, by decide, rfl, rfl, by decide, by decide, rfl⟩

/-- C6: `parse_value` matches its regex against `text.upper()` but then
checks the `0X`/`0O`/`0B` prefixes against the raw text, so the lowercase
spellings fall through to `int(text)` in base 10 and raise `ValueError`;
only `-16` of the four claimed inputs parses (the uppercase spellings do
work, showing the intent of the `upper()` in the regex match). -/
theorem parse_value_lowercase_prefixes_value_error :
    parse_value ("-0x10") = .error ("ValueError") ∧
    parse_value ("-16") = .ok (-16) ∧
    parse_value ("0b10000") = .error ("ValueError") ∧
    parse_value ("0o20") = .error ("ValueError") ∧
    parse_value ("-0X10") = .ok (-16) ∧
    parse_value ("0B10000") = .ok 16 ∧
    parse_value ("0O20") = .ok 16 := by
  decide

/-- C7 counterexample: `parse_value("12")` succeeds with 12 — the regex
alternative `[1-9][0-9]+` needs one digit after the leading one, not two, so
two-digit plain decimals are accepted, contradicting the claim that they
fail with "Invalid value.". -/
theorem parse_value_accepts_two_digit_decimal :
    parse_value ("12") = .ok 12 ∧ parse_value ("12") ≠ .error ("Invalid value.") := by
  decide

/-- C7 amended: every two-digit plain decimal (first digit 1-9) parses to its
value; plain decimals are rejected only with a leading zero, e.g. `012`. -/
theorem two_digit_decimals_parse (c₁ c₂ : Char)
    (h₁ : c₁ ∈ ['1', '2', '3', '4', '5', '6', '7', '8', '9'])
    (h₂ : c₂ ∈ ['0', '1', '2', '3', '4', '5', '6', '7', '8', '9']) :
    parse_value (⟨[c₁, c₂]⟩ : String) =
      .ok (((c₁.toNat - '0'.toNat) * 10 + (c₂.toNat - '0'.toNat) : Nat)) ∧
    parse_value ("012") = .error ("Invalid value.") := by
  refine ⟨?_, by decide⟩
  fin_cases h₁ <;> fin_cases h₂ <;> decide

/-- C7 witness: the amended statement at `"12"`. -/
theorem two_digit_decimals_parse_witness :
    ('1' ∈ ['1', '2', '3', '4', '5', '6', '7', '8', '9']) ∧
    ('2' ∈ ['0', '1', '2', '3', '4', '5', '6', '7', '8', '9']) ∧
    (parse_value (⟨['1', '2']⟩ : String) =
        .ok ((('1'.toNat - '0'.toNat) * 10 + ('2'.toNat - '0'.toNat) : Nat)) ∧
      parse_value ("012") = .error ("Invalid value.")) :=
  ⟨by decide, by decide, two_digit_decimals_parse '1' '2' (by decide) (by decide)⟩

/-- C8: the offset computed by `Parameter.EmitLoadAddress` for parameter `i`
is 2 plus the sizes of the parameters after it (a `ByRef` parameter has
pointer size 1 after resolution), and `ReturnVariable.EmitLoadAddress`
computes 2 plus the sum of all parameter sizes. -/
theorem param_and_return_frame_offsets (args : List ParamD) (i : Nat) (h : i < args.length) :
    Parameter.emitOffset args i = 2 + ((args.drop (i + 1)).map ParamD.size).sum ∧
    ReturnVariable.emitOffset args = 2 + (args.map ParamD.size).sum ∧
    (∀ p : ParamD, p.ref = true → p.size = 1) := by
  refine ⟨?_, ?_, ?_⟩
  · unfold Parameter.emitOffset
    rw [foldl_add_map (fun j => (args.getD j ⟨"", .emptyT, false⟩).size)]
    rw [pyRangeDown_getD_sum (fun p => p.size) ⟨"", .emptyT, false⟩ args i h]
  · unfold ReturnVariable.emitOffset
    rw [foldl_add_map (fun j => (args.getD j ⟨"", .emptyT, false⟩).size)]
    rw [range_getD_sum (fun p => p.size) ⟨"", .emptyT, false⟩ args args.length le_rfl]
    rw [List.take_length]
  · intro p hp
    simp [ParamD.size, ParamD.resolvedTy, hp, Ty.size]

/-- C8 witness: a value parameter, a `ByRef` parameter and a two-field
structure parameter. -/
theorem param_and_return_frame_offsets_witness :
    0 < ([⟨"a", Ty.signedInt, false⟩, ⟨"b", Ty.signedInt, true⟩,
      ⟨"c", Ty.complexT ("S") [.mk ("u") Ty.signedInt 0, .mk ("v") Ty.signedInt 1],
        false⟩] : List ParamD).length ∧
    (Parameter.emitOffset [⟨"a", Ty.signedInt, false⟩, ⟨"b", Ty.signedInt, true⟩,
        ⟨"c", Ty.complexT ("S") [.mk ("u") Ty.signedInt 0, .mk ("v") Ty.signedInt 1], false⟩] 0 =
      2 + ((([⟨"a", Ty.signedInt, false⟩, ⟨"b", Ty.signedInt, true⟩,
        ⟨"c", Ty.complexT ("S") [.mk ("u") Ty.signedInt 0, .mk ("v") Ty.signedInt 1],
          false⟩] : List ParamD).drop (0 + 1)).map ParamD.size).sum ∧
      ReturnVariable.emitOffset [⟨"a", Ty.signedInt, false⟩, ⟨"b", Ty.signedInt, true⟩,
        ⟨"c", Ty.complexT ("S") [.mk ("u") Ty.signedInt 0, .mk ("v") Ty.signedInt 1], false⟩] =
      2 + (([⟨"a", Ty.signedInt, false⟩, ⟨"b", Ty.signedInt, true⟩,
        ⟨"c", Ty.complexT ("S") [.mk ("u") Ty.signedInt 0, .mk ("v") Ty.signedInt 1],
          false⟩] : List ParamD).map ParamD.size).sum ∧
      (∀ p : ParamD, p.ref = true → p.size = 1)) :=
  ⟨by decide,
    param_and_return_frame_offsets
      [⟨"a", Ty.signedInt, false⟩, ⟨"b", Ty.signedInt, true⟩,
        ⟨"c", Ty.complexT ("S") [.mk ("u") Ty.signedInt 0, .mk ("v") Ty.signedInt 1], false⟩]
      0 (by decide)⟩

/-- C9: a `ComplexType`'s size is the sum of its field sizes; the offset
`GetField(index)` computes is the sum of the sizes of the earlier fields, and
`GetFieldOffset(name)` (and thus `GetField(name)`, which walks identically)
returns that same sum for a field whose name is not shadowed by an earlier
field. -/
theorem complexType_size_and_field_offsets (nm : String) (fields : List FieldD) :
    Ty.size (.complexT nm fields) = (fields.map (fun f => f.ty.size)).sum ∧
    (∀ i, i ≤ fields.length →
      ComplexType.getFieldIndexOffset fields i =
        ((fields.take i).map (fun f => f.ty.size)).sum) ∧
    (∀ i, i < fields.length →
      (∀ j, j < i →
        (fields.getD j (.mk ("") .emptyT 0)).name ≠
          (fields.getD i (.mk ("") .emptyT 0)).name) →
      ComplexType.GetFieldOffset fields ((fields.getD i (.mk ("") .emptyT 0)).name) =
        some (((fields.take i).map (fun f => f.ty.size)).sum)) := by
  refine ⟨?_, ?_, ?_⟩
  · show fieldsSize fields = _
    exact fieldsSize_eq fields
  · intro i hi
    unfold ComplexType.getFieldIndexOffset
    rw [foldl_add_map (fun k => (fields.getD k (.mk ("") .emptyT 0)).ty.size)]
    rw [range_getD_sum (fun f => f.ty.size) (.mk ("") .emptyT 0) fields i hi]
    simp
  · intro i hi hdist
    have := getFieldOffsetAux_spec fields 0 i hi hdist
    unfold ComplexType.GetFieldOffset
    simpa using this

/-- C9 witness: a structure with an integer field followed by a two-word
field. -/
theorem complexType_size_and_field_offsets_witness :
    (1 < ([.mk ("u") Ty.signedInt 0,
      .mk ("v") (Ty.complexT ("T") [.mk ("w") Ty.signedInt 0, .mk ("z") Ty.signedInt 1]) 1,
      .mk ("q") Ty.signedInt 2] : List FieldD).length) ∧
    (∀ j, j < 1 →
      (([.mk ("u") Ty.signedInt 0,
        .mk ("v") (Ty.complexT ("T") [.mk ("w") Ty.signedInt 0, .mk ("z") Ty.signedInt 1]) 1,
        .mk ("q") Ty.signedInt 2] : List FieldD).getD j (.mk ("") .emptyT 0)).name ≠
        (([.mk ("u") Ty.signedInt 0,
          .mk ("v") (Ty.complexT ("T") [.mk ("w") Ty.signedInt 0, .mk ("z") Ty.signedInt 1]) 1,
          .mk ("q") Ty.signedInt 2] : List FieldD).getD 1 (.mk ("") .emptyT 0)).name) ∧
    ComplexType.GetFieldOffset
      [.mk ("u") Ty.signedInt 0,
        .mk ("v") (Ty.complexT ("T") [.mk ("w") Ty.signedInt 0, .mk ("z") Ty.signedInt 1]) 1,
        .mk ("q") Ty.signedInt 2]
      ((([.mk ("u") Ty.signedInt 0,
        .mk ("v") (Ty.complexT ("T") [.mk ("w") Ty.signedInt 0, .mk ("z") Ty.signedInt 1]) 1,
        .mk ("q") Ty.signedInt 2] : List FieldD).getD 1 (.mk ("") .emptyT 0)).name) =
      some
        (((([.mk ("u") Ty.signedInt 0,
          .mk ("v") (Ty.complexT ("T") [.mk ("w") Ty.signedInt 0, .mk ("z") Ty.signedInt 1]) 1,
          .mk ("q") Ty.signedInt 2] : List FieldD).take 1).map (fun f => f.ty.size)).sum) :=
  ⟨by decide, by decide,
    (complexType_size_and_field_offsets ("S")
      [.mk ("u") Ty.signedInt 0,
        .mk ("v") (Ty.complexT ("T") [.mk ("w") Ty.signedInt 0, .mk ("z") Ty.signedInt 1]) 1,
        .mk ("q") Ty.signedInt 2]).2.2 1 (by decide) (by decide)⟩

/-- C10: when the root of a dotted variable name matches no local and no
parameter, `Callable.GetVariable` falls off its end and returns `None`
without raising; the resolver stores that `None` and emission later fails
with "Type is not resolved." instead of an undefined-variable error. -/
theorem unknown_root_variable_resolves_to_none (ctx : CallCtx) (name : String) (st : EmitSt)
    (hloc : ∀ l ∈ ctx.locals, l.name ≠ (pySplitDot name).headD (""))
    (harg : ∀ p ∈ ctx.args, p.name ≠ (pySplitDot name).headD ("")) :
    Callable.GetVariable ctx name = .ok none ∧
    VariableExpression.resolveAndEmit ctx name st = .error ("Type is not resolved.") := by
  have h1 : ctx.locals.findIdx? (fun l => l.name == (pySplitDot name).headD ("")) = none := by
    apply findIdx?_none_of_all
    intro x hx
    simpa using hloc x hx
  have h2 : ctx.args.findIdx? (fun p => p.name == (pySplitDot name).headD ("")) = none := by
    apply findIdx?_none_of_all
    intro x hx
    simpa using harg x hx
  have hget : Callable.GetVariable ctx name = .ok none := by
    simp only [Callable.GetVariable, h1, h2]
  refine ⟨hget, ?_⟩
  unfold VariableExpression.resolveAndEmit
  rw [hget]
  rfl

/-- C10 witness: a callable with local `x` and parameter `p`, resolving `y`. -/
theorem unknown_root_variable_witness :
    (∀ l ∈ (⟨[⟨"x", Ty.signedInt, none⟩], [⟨"p", Ty.signedInt, false⟩]⟩ : CallCtx).locals,
      l.name ≠ (pySplitDot ("y")).headD ("")) ∧
    (∀ p ∈ (⟨[⟨"x", Ty.signedInt, none⟩], [⟨"p", Ty.signedInt, false⟩]⟩ : CallCtx).args,
      p.name ≠ (pySplitDot ("y")).headD ("")) ∧
    (Callable.GetVariable ⟨[⟨"x", Ty.signedInt, none⟩], [⟨"p", Ty.signedInt, false⟩]⟩ ("y") =
        .ok none ∧
      VariableExpression.resolveAndEmit
        ⟨[⟨"x", Ty.signedInt, none⟩], [⟨"p", Ty.signedInt, false⟩]⟩ ("y") EmitSt.empty =
        .error ("Type is not resolved.")) :=
  ⟨by decide, by decide,
    unknown_root_variable_resolves_to_none
      ⟨[⟨"x", Ty.signedInt, none⟩], [⟨"p", Ty.signedInt, false⟩]⟩ ("y") EmitSt.empty
      (by decide) (by decide)⟩

end GeneralBasic
